import Mathlib

/-!
Verification development for the Homey service layer
(`src/services/geminiService.ts` and the plan orchestration in
`src/App.tsx`), shallowly embedded in Lean.

External asynchronous calls are modelled by their observable outcomes:
an operation is a function from its invocation index to an
`Except GenError α` result, and a run of the retry wrapper is recorded
together with the list of waits it performed and the number of times it
invoked the underlying operation.
-/

namespace Homey

/-- A thrown JavaScript error value, restricted to the fields the service
layer inspects: `status`, `code`, `message`, and whether the thrown value
is an `Error` instance (relevant to the `instanceof Error` test in
`generateSingleImage`). -/
structure GenError where
  status : Option Nat := none
  code : Option Nat := none
  message : Option String := none
  isErrorInstance : Bool := true
deriving DecidableEq

/-- Whether `sub` occurs contiguously in `l`. -/
def containsSub (sub : List Char) : List Char → Bool
  | [] => sub.isEmpty
  | c :: cs => sub.isPrefixOf (c :: cs) || containsSub sub cs

/-- JavaScript string containment `s.includes sub`: `sub` occurs contiguously in `s`. -/
def strIncludes (s sub : String) : Bool :=
  containsSub sub.toList s.toList

/-- The rate-limit test of `retryOperation` (geminiService.ts lines 16-18):
`error.status === 429 || error.code === 429 ||
 (error.message && (error.message.includes('429') || error.message.includes('quota')))`. -/
def isRateLimit (e : GenError) : Bool :=
  e.status == some 429 || e.code == some 429 ||
    (match e.message with
     | some m => strIncludes m ("429") || strIncludes m ("quota")
     | none => false)

/-- One run of the retry wrapper: the final outcome, the list of delays
waited (in order; one wait precedes each retry), and how many times the
wrapped operation was invoked. -/
structure RetryRun (α : Type) where
  result : Except GenError α
  delays : List Nat
  calls : Nat

/-- The retry wrapper `retryOperation` (geminiService.ts lines 12-27): invoke `op`; on an error
that is a rate-limit signal while retries remain, wait `baseDelay`, then
recurse with `retries - 1` and `baseDelay * 2`; otherwise propagate the
error. The `retries > 0` half of the source's guard is realized by the
pattern split on the retry budget. `idx` numbers the invocations so that
`op` can describe a fake operation whose outcome varies between attempts. -/
def retryOperation {α : Type} (op : Nat → Except GenError α) :
    Nat → Nat → Nat → RetryRun α
  | 0, _, idx =>
    match op idx with
    | .ok v => ⟨.ok v, [], 1⟩
    | .error e => ⟨.error e, [], 1⟩
  | r + 1, baseDelay, idx =>
    match op idx with
    | .ok v => ⟨.ok v, [], 1⟩
    | .error e =>
      if isRateLimit e then
        let rest := retryOperation op r (baseDelay * 2) (idx + 1)
        ⟨rest.result, baseDelay :: rest.delays, rest.calls + 1⟩
      else ⟨.error e, [], 1⟩

/-! Section: JSON values and the project plan (types.ts, PLAN_SCHEMA). -/

/-- A parsed JSON value, as produced by a successful `JSON.parse`. -/
inductive Json where
  | null
  | bool (b : Bool)
  | num (n : Int)
  | str (s : String)
  | arr (xs : List Json)
  | obj (fields : List (String × Json))

/-- Property lookup on a JavaScript object literal; with duplicate keys the
last occurrence wins, as in `JSON.parse`. -/
def lookupField (fields : List (String × Json)) (key : String) : Option Json :=
  fields.foldl (fun acc kv => if kv.1 = key then some kv.2 else acc) none

/-- Property access `j.key`: defined on objects, `undefined` (here `none`)
on every other JSON value. -/
def Json.getField (j : Json) (key : String) : Option Json :=
  match j with
  | .obj fields => lookupField fields key
  | _ => none

/-- The `ProjectPlan` record (types.ts lines 17-26). -/
structure ProjectPlan where
  styleSummary : String
  steps : List String
  costEstimate : String
  timeEstimate : String
  materials : List String
  tools : List String
  safety : List String
  itemDescription : String

/-- The runtime shape of `JSON.parse(response.text) as ProjectPlan`: the
TypeScript cast performs no validation, so each field is whatever JSON
value sits under that key, or `undefined` (`none`) when the key is absent. -/
structure RawPlan where
  styleSummary : Option Json
  steps : Option Json
  costEstimate : Option Json
  timeEstimate : Option Json
  materials : Option Json
  tools : Option Json
  safety : Option Json
  itemDescription : Option Json

/-- Reading a parsed JSON value as a `ProjectPlan` (the unchecked cast). -/
def castPlan (j : Json) : RawPlan :=
  ⟨j.getField ("styleSummary"), j.getField ("steps"), j.getField ("costEstimate"),
   j.getField ("timeEstimate"), j.getField ("materials"), j.getField ("tools"),
   j.getField ("safety"), j.getField ("itemDescription")⟩

/-- Serialization of a full `ProjectPlan` into the JSON shape the
`PLAN_SCHEMA` describes (strings and arrays of strings). -/
def planToJson (p : ProjectPlan) : Json :=
  .obj [("styleSummary", .str p.styleSummary),
        ("steps", .arr (p.steps.map .str)),
        ("costEstimate", .str p.costEstimate),
        ("timeEstimate", .str p.timeEstimate),
        ("materials", .arr (p.materials.map .str)),
        ("tools", .arr (p.tools.map .str)),
        ("safety", .arr (p.safety.map .str)),
        ("itemDescription", .str p.itemDescription)]

/-- The `required` list of `PLAN_SCHEMA` (geminiService.ts line 69). -/
def PLAN_SCHEMA_required : List String :=
  ["styleSummary", "steps", "costEstimate", "timeEstimate",
   "materials", "tools", "safety", "itemDescription"]

/-- Does a JSON value carry every field `PLAN_SCHEMA` marks required? -/
def hasAllRequired (j : Json) : Bool :=
  PLAN_SCHEMA_required.all (fun k => (j.getField k).isSome)

/-! Section: generateProjectPlan (geminiService.ts lines 93-163). -/

/-- The text of one service response, after the empty check: either
`JSON.parse` throws on it, or it parses to a JSON value. -/
inductive ParsedText where
  | malformed
  | value (j : Json)

/-- The error thrown when `response.text` is empty
(geminiService.ts line 153). -/
def noTextError : GenError :=
  { message := some ("No text response received from Gemini."), isErrorInstance := true }

/-- The `SyntaxError` thrown by `JSON.parse` on malformed text; its message
text is engine-specific, so it is left unspecified here. -/
def jsonSyntaxError : GenError :=
  { message := none, isErrorInstance := true }

/-- One attempt of the `generateProjectPlan` body: a thrown service error is
logged and rethrown; empty text throws; otherwise the text is parsed and
cast, unvalidated, to a plan. The response is modelled by its outcome:
`.error e` if `ai.models.generateContent` threw `e`, otherwise the text. -/
def generateProjectPlanBody (resp : Except GenError (Option ParsedText)) :
    Except GenError RawPlan :=
  match resp with
  | .error e => .error e
  | .ok none => .error noTextError
  | .ok (some .malformed) => .error jsonSyntaxError
  | .ok (some (.value j)) => .ok (castPlan j)

/-- The full `generateProjectPlan`: the body wrapped in `retryOperation` with the
default budget (3 retries, 2000 ms base delay). -/
def generateProjectPlan (resps : Nat → Except GenError (Option ParsedText)) :
    RetryRun RawPlan :=
  retryOperation (fun i => generateProjectPlanBody (resps i)) 3 2000 0

/-! Section: generateSingleImage (geminiService.ts lines 262-349). -/

/-- The scan of `response.candidates[0].content.parts` for the first part
carrying `inlineData.data`: each part is modelled by that optional payload. -/
def firstInlineImage (parts : Option (List (Option String))) : Option String :=
  match parts with
  | none => none
  | some ps => ps.findSome? id

/-- The catch handler of one `generateSingleImage` attempt
(geminiService.ts lines 341-347): rethrow only when the thrown value is an
`Error` instance with `status === 429`; swallow everything else as `null`. -/
def generateSingleImageAttempt (raw : Except GenError (Option String)) :
    Except GenError (Option String) :=
  match raw with
  | .ok r => .ok r
  | .error e =>
    if e.isErrorInstance && e.status == some 429 then .error e else .ok none

/-- The full `generateSingleImage`: each attempt's service response is modelled by
its outcome (`.error e` if the call threw, otherwise the content parts);
the attempt result goes through the catch handler and the whole body is
wrapped in `retryOperation` with the default budget. -/
def generateSingleImage
    (resps : Nat → Except GenError (Option (List (Option String)))) :
    RetryRun (Option String) :=
  retryOperation
    (fun i => generateSingleImageAttempt ((resps i).map firstInlineImage))
    3 2000 0

/-! Section: getRealWorldReferences (geminiService.ts lines 404-444). -/

/-- The URIs extracted from `groundingMetadata.groundingChunks`: each chunk
is modelled by its optional `web.uri`. -/
def extractedUrls (resp : Except GenError (Option (List (Option String)))) :
    List String :=
  match resp with
  | .error _ => []
  | .ok none => []
  | .ok (some chunks) => chunks.filterMap id

/-- One attempt of the `getRealWorldReferences` body: on a thrown error the
catch returns `Array(count).fill("")`; otherwise the extracted URLs are
padded with empty strings up to `count` and sliced to `count`. -/
def getRealWorldReferencesBody
    (resp : Except GenError (Option (List (Option String)))) (count : Nat) :
    List String :=
  match resp with
  | .error _ => List.replicate count ""
  | .ok chunks =>
    let urls := extractedUrls (.ok chunks)
    (urls ++ List.replicate (count - urls.length) "").take count

/-- The full `getRealWorldReferences`: the body (which never throws) wrapped in
`retryOperation` with the default budget. -/
def getRealWorldReferences
    (resps : Nat → Except GenError (Option (List (Option String)))) (count : Nat) :
    RetryRun (List String) :=
  retryOperation (fun i => .ok (getRealWorldReferencesBody (resps i) count)) 3 2000 0

/-! Section: the shared per-item loop body (geminiService.ts lines 470-476 and 500-512). -/

/-- One iteration of the sequential image batch loops: on a produced image,
append `keep image`; on a `null` image, or on a caught error (`catch` and
continue), leave the accumulator unchanged. -/
def pushImage {γ : Type} (keep : String → γ) (results : List γ)
    (outcome : Except GenError (Option String)) : List γ :=
  match outcome with
  | .ok (some image) => results ++ [keep image]
  | .ok none => results
  | .error _ => results

/-- Whether one iteration contributes an entry, and which. -/
def imageSuccess {γ : Type} (keep : String → γ)
    (outcome : Except GenError (Option String)) : Option γ :=
  match outcome with
  | .ok (some image) => some (keep image)
  | .ok none => none
  | .error _ => none

/-! Section: generateInspirationImages (geminiService.ts lines 450-480). -/

/-- The default views requested when no custom views are passed
(geminiService.ts line 459). -/
def defaultViews : List String :=
  ["straight on view", "slightly angled view", "detail focused view"]

/-- The batch `generateInspirationImages`: fetch 3 grounding references, then loop
sequentially over the views; view `i` uses reference `i % references.length`;
a per-view throw is caught and skipped, a `null` image is skipped, a
produced image is appended. `gen view ref` models the outcome of
`generateSingleImage` for that view/reference pair. -/
def generateInspirationImages
    (refResp : Except GenError (Option (List (Option String))))
    (customViews : Option (List String))
    (gen : String → String → Except GenError (Option String)) : List String :=
  let references := getRealWorldReferencesBody refResp 3
  let views := customViews.getD defaultViews
  (List.range views.length).foldl
    (fun results i =>
      pushImage (fun image => image) results
        (gen (views.getD i "") (references.getD (i % references.length) "")))
    []

/-! Section: generateSurpriseImages (geminiService.ts lines 486-516). -/

/-- The batch `generateSurpriseImages`: loop sequentially over the styles; for each,
fetch 1 grounding reference and generate one image; push `(style, image)`
on success, skip the style when the image is `null` or the generation
throws. `refResps style` models the grounded-search response for that
style, `gen style ref` the outcome of `generateSingleImage`. -/
def generateSurpriseImages (styles : List String)
    (refResps : String → Except GenError (Option (List (Option String))))
    (gen : String → String → Except GenError (Option String)) :
    List (String × String) :=
  styles.foldl
    (fun results style =>
      pushImage (fun image => (style, image)) results
        (gen style ((getRealWorldReferencesBody (refResps style) 1).getD 0 "")))
    []

/-! Section: sendProjectChat (geminiService.ts lines 521-565). -/

/-- The `ChatMessage` roles (types.ts line 44). -/
inductive ChatRole where
  | user
  | model
deriving DecidableEq

/-- The `ChatMessage` record (types.ts lines 43-46). -/
structure ChatMessage where
  role : ChatRole
  text : String

/-- The fixed fallback apology returned when the service reply text is
falsy (geminiService.ts line 559). -/
def FALLBACK_APOLOGY : String :=
  "I\x27m having a little trouble connecting right now. Could you ask that again?"

/-- The return expression of `sendProjectChat`:
`response.text || fallback`, where `response.text` may be absent (`none`)
or the empty string — both falsy in JavaScript. The plan, history and new
message shape only the prompt, never the returned value. -/
def sendProjectChat (plan : ProjectPlan) (history : List ChatMessage)
    (newMessage : String) (respText : Option String) : String :=
  match plan, history, newMessage, respText with
  | _, _, _, some t => if t = "" then FALLBACK_APOLOGY else t
  | _, _, _, none => FALLBACK_APOLOGY

/-! Section: generateFullPlan (App.tsx lines 306-331). -/

/-- The outcome of the `generateFullPlan` orchestration: either the results
state with the assembled `{plan, inspirationImages}`, or the error state
with its message. -/
inductive FullPlanOutcome where
  | results (plan : RawPlan) (inspirationImages : List String)
  | errorState (message : String)

/-- The displayed message `error.message || "Something went wrong."` (App.tsx line 328). -/
def errMessage (e : GenError) : String :=
  match e.message with
  | some m => if m = "" then "Something went wrong." else m
  | none => "Something went wrong."

/-- The two additional views requested when an initial image is supplied
(App.tsx line 316). -/
def additionalViews : List String :=
  ["slightly angled view", "detail focused view"]

/-- The orchestration `generateFullPlan`: request the plan (through its retry wrapper); on
failure, enter the error state; on success, generate the inspiration
images — with the two additional views prefixed by the initial image when
one is supplied, with the default views otherwise — and enter the results
state. -/
def generateFullPlan (planResps : Nat → Except GenError (Option ParsedText))
    (initialImage : Option String)
    (refResp : Except GenError (Option (List (Option String))))
    (gen : String → String → Except GenError (Option String)) : FullPlanOutcome :=
  match (generateProjectPlan planResps).result with
  | .error e => .errorState (errMessage e)
  | .ok plan =>
    match initialImage with
    | some init =>
      .results plan (init :: generateInspirationImages refResp (some additionalViews) gen)
    | none =>
      .results plan (generateInspirationImages refResp none gen)

/-! Section: concrete fixtures for the closed instances. -/

/-- A rate-limit error carried by the `status` field. -/
def rateLimitError : GenError :=
  { status := some 429, isErrorInstance := true }

/-- A rate-limit signal carried only by the `code` field (no `status`). -/
def codeRateLimitError : GenError :=
  { code := some 429, isErrorInstance := true }

/-- A plain server error: not a rate-limit signal in any of the three ways. -/
def serverError : GenError :=
  { status := some 500, message := some ("boom"), isErrorInstance := true }

/-- A fake operation that hits the rate limit twice, then succeeds. -/
def opSucceedsAfterTwo : Nat → Except GenError Nat :=
  fun i => if i < 2 then .error rateLimitError else .ok 42

/-- A fake operation that always fails with a non-rate-limit error. -/
def opAlwaysServerError : Nat → Except GenError Nat :=
  fun _ => .error serverError

/-- A fake operation that always hits the rate limit. -/
def opAlwaysRateLimited : Nat → Except GenError Nat :=
  fun _ => .error rateLimitError

/-- A fake image generator that throws a non-rate-limit error on the
second default view and produces the view name as the image otherwise. -/
def genFailsSecondView : String → String → Except GenError (Option String) :=
  fun view _ =>
    if view = "slightly angled view" then .error serverError else .ok (some view)

/-- A concrete fully-populated plan. -/
def examplePlan : ProjectPlan :=
  ⟨"warm oak", ["sand", "paint"], "$50 - $100", "3-4 hours",
   ["paint"], ["brush"], ["wear a mask"], "a small oak dresser"⟩

/-! Section: step lemmas for `retryOperation`. -/

theorem retryOperation_of_ok {α : Type} {op : Nat → Except GenError α} {idx : Nat}
    {v : α} (hop : op idx = .ok v) (retries baseDelay : Nat) :
    retryOperation op retries baseDelay idx = ⟨.ok v, [], 1⟩ := by
  cases retries <;> simp [retryOperation, hop]

theorem retryOperation_retry {α : Type} {op : Nat → Except GenError α} {idx : Nat}
    {e : GenError} (hop : op idx = .error e) (hrl : isRateLimit e = true)
    (r baseDelay : Nat) :
    retryOperation op (r + 1) baseDelay idx =
      ⟨(retryOperation op r (baseDelay * 2) (idx + 1)).result,
       baseDelay :: (retryOperation op r (baseDelay * 2) (idx + 1)).delays,
       (retryOperation op r (baseDelay * 2) (idx + 1)).calls + 1⟩ := by
  conv_lhs => rw [retryOperation]
  rw [hop]
  simp [hrl]

theorem retryOperation_stop_zero {α : Type} {op : Nat → Except GenError α}
    {idx : Nat} {e : GenError} (hop : op idx = .error e) (baseDelay : Nat) :
    retryOperation op 0 baseDelay idx = ⟨.error e, [], 1⟩ := by
  simp [retryOperation, hop]

theorem retryOperation_stop_nonRL {α : Type} {op : Nat → Except GenError α}
    {idx : Nat} {e : GenError} (hop : op idx = .error e)
    (hrl : isRateLimit e = false) (retries baseDelay : Nat) :
    retryOperation op retries baseDelay idx = ⟨.error e, [], 1⟩ := by
  cases retries <;> simp [retryOperation, hop, hrl]

/-! Section: behaviour lemmas for `retryOperation`. -/

theorem retryOperation_ok_after {α : Type} (op : Nat → Except GenError α)
    (k b d idx : Nat) (v : α) (hk : k ≤ b)
    (hfail : ∀ i < k, ∃ e, op (idx + i) = .error e ∧ isRateLimit e = true)
    (hok : op (idx + k) = .ok v) :
    retryOperation op b d idx =
      ⟨.ok v, (List.range k).map (fun n => d * 2 ^ n), k + 1⟩ := by
  induction k generalizing b d idx with
  | zero =>
    simpa using retryOperation_of_ok (by simpa using hok) b d
  | succ k ih =>
    obtain ⟨e, he, hrl⟩ := hfail 0 (Nat.succ_pos k)
    obtain ⟨b', rfl⟩ : ∃ b', b = b' + 1 := ⟨b - 1, by omega⟩
    rw [retryOperation_retry (by simpa using he) hrl]
    have hfail' : ∀ i < k, ∃ e', op (idx + 1 + i) = .error e' ∧ isRateLimit e' = true := by
      intro i hi
      rw [show idx + 1 + i = idx + (i + 1) by omega]
      exact hfail (i + 1) (by omega)
    have hok' : op (idx + 1 + k) = .ok v := by
      rw [show idx + 1 + k = idx + (k + 1) by omega]
      exact hok
    rw [ih b' (d * 2) (idx + 1) (by omega) hfail' hok']
    refine congrArg₂ (fun l c => RetryRun.mk (.ok v) l c) ?_ rfl
    rw [List.range_succ_eq_map, List.map_cons, List.map_map]
    refine congrArg₂ List.cons (by ring) ?_
    refine List.map_congr_left fun n _ => ?_
    simp [Function.comp]
    ring

theorem retryOperation_exhaust {α : Type} (op : Nat → Except GenError α)
    (b d idx : Nat) (e : GenError)
    (hfail : ∀ i < b, ∃ e', op (idx + i) = .error e' ∧ isRateLimit e' = true)
    (hlast : op (idx + b) = .error e) :
    retryOperation op b d idx =
      ⟨.error e, (List.range b).map (fun n => d * 2 ^ n), b + 1⟩ := by
  induction b generalizing d idx with
  | zero =>
    simpa using retryOperation_stop_zero (by simpa using hlast) d
  | succ b ih =>
    obtain ⟨e₀, he₀, hrl₀⟩ := hfail 0 (Nat.succ_pos b)
    rw [retryOperation_retry (by simpa using he₀) hrl₀]
    have hfail' : ∀ i < b, ∃ e', op (idx + 1 + i) = .error e' ∧ isRateLimit e' = true := by
      intro i hi
      rw [show idx + 1 + i = idx + (i + 1) by omega]
      exact hfail (i + 1) (by omega)
    have hlast' : op (idx + 1 + b) = .error e := by
      rw [show idx + 1 + b = idx + (b + 1) by omega]
      exact hlast
    rw [ih (d * 2) (idx + 1) hfail' hlast']
    refine congrArg₂ (fun l c => RetryRun.mk (.error e) l c) ?_ rfl
    rw [List.range_succ_eq_map, List.map_cons, List.map_map]
    refine congrArg₂ List.cons (by ring) ?_
    refine List.map_congr_left fun n _ => ?_
    simp [Function.comp]
    ring

theorem retryOperation_calls_bound {α : Type} (op : Nat → Except GenError α)
    (b d idx : Nat) : (retryOperation op b d idx).calls ≤ b + 1 := by
  induction b generalizing d idx with
  | zero =>
    cases hop : op idx with
    | ok v => simp [retryOperation_of_ok hop]
    | error e => simp [retryOperation_stop_zero hop]
  | succ b ih =>
    cases hop : op idx with
    | ok v => simp [retryOperation_of_ok hop]
    | error e =>
      cases hrl : isRateLimit e with
      | false => simp [retryOperation_stop_nonRL hop hrl]
      | true =>
        rw [retryOperation_retry hop hrl]
        have := ih (d * 2) (idx + 1)
        simp only []
        omega

/-! Section: lemmas for the batch loops and reference padding. -/

theorem isRateLimit_of_status429 {e : GenError} (h : e.status = some 429) :
    isRateLimit e = true := by
  simp [isRateLimit, h]

theorem foldl_pushImage {α γ : Type} (keep : α → String → γ)
    (g : α → Except GenError (Option String)) (l : List α) (acc : List γ) :
    l.foldl (fun results a => pushImage (keep a) results (g a)) acc
      = acc ++ l.filterMap (fun a => imageSuccess (keep a) (g a)) := by
  induction l generalizing acc with
  | nil => simp
  | cons x xs ih =>
    rw [List.foldl_cons, List.filterMap_cons]
    cases hg : g x with
    | error e => exact ih acc
    | ok o =>
      cases o with
      | none => exact ih acc
      | some image => exact (ih (acc ++ [keep x image])).trans (by simp [imageSuccess])

theorem take_append_replicate (l : List String) (n : Nat) :
    (l ++ List.replicate (n - l.length) "").take n
      = l.take n ++ List.replicate (n - l.length) "" := by
  rcases Nat.le_total l.length n with h | h
  · rw [List.take_of_length_le (by simp; omega), List.take_of_length_le h]
  · have h0 : n - l.length = 0 := by omega
    simp [h0]

theorem getRealWorldReferencesBody_eq
    (resp : Except GenError (Option (List (Option String)))) (count : Nat) :
    getRealWorldReferencesBody resp count
      = (extractedUrls resp).take count
          ++ List.replicate (count - (extractedUrls resp).length) "" := by
  cases resp with
  | error e => simp [getRealWorldReferencesBody, extractedUrls]
  | ok chunks =>
    simp only [getRealWorldReferencesBody]
    exact take_append_replicate _ _

theorem getRealWorldReferencesBody_length
    (resp : Except GenError (Option (List (Option String)))) (count : Nat) :
    (getRealWorldReferencesBody resp count).length = count := by
  rw [getRealWorldReferencesBody_eq]
  simp [List.length_take]
  omega

theorem generateInspirationImages_filterMap
    (refResp : Except GenError (Option (List (Option String))))
    (customViews : Option (List String))
    (gen : String → String → Except GenError (Option String)) :
    generateInspirationImages refResp customViews gen
      = (List.range ((customViews.getD defaultViews).length)).filterMap (fun i =>
          imageSuccess (fun image => image)
            (gen ((customViews.getD defaultViews).getD i "")
                 ((getRealWorldReferencesBody refResp 3).getD (i % 3) ""))) := by
  simp only [generateInspirationImages, getRealWorldReferencesBody_length]
  exact (foldl_pushImage _ _ _ []).trans (by simp)

theorem generateSurpriseImages_filterMap (styles : List String)
    (refResps : String → Except GenError (Option (List (Option String))))
    (gen : String → String → Except GenError (Option String)) :
    generateSurpriseImages styles refResps gen
      = styles.filterMap (fun style =>
          imageSuccess (fun image => (style, image))
            (gen style ((getRealWorldReferencesBody (refResps style) 1).getD 0 ""))) := by
  unfold generateSurpriseImages
  exact (foldl_pushImage _ _ _ []).trans (by simp)

/-! Section: the claims. -/

/-- Claim C1: if the wrapped operation fails with a rate-limit signal on its
first `k` invocations (`k < b`) and succeeds on invocation `k`, then
`retryOperation` with budget `b` and base delay `d` returns the success
value, having waited `d * 2 ^ (n - 1)` before the `n`-th retry (the delay
list is `[d * 2 ^ 0, ..., d * 2 ^ (k - 1)]`) and invoked the operation
`k + 1` times. -/
theorem retryOperation_rateLimit_then_success {α : Type}
    (op : Nat → Except GenError α) (k b d : Nat) (v : α) (hk : k < b)
    (hfail : ∀ i < k, ∃ e, op i = .error e ∧ isRateLimit e = true)
    (hok : op k = .ok v) :
    retryOperation op b d 0 =
      ⟨.ok v, (List.range k).map (fun n => d * 2 ^ n), k + 1⟩ :=
  retryOperation_ok_after op k b d 0 v (Nat.le_of_lt hk)
    (fun i hi => by rw [Nat.zero_add]; exact hfail i hi)
    (by rw [Nat.zero_add]; exact hok)

/-- Witness for C1: `opSucceedsAfterTwo` rate-limits twice, then returns 42;
with budget 3 and base delay 2000, the wrapper returns 42 after waiting
2000 then 4000 ms and 3 invocations. -/
theorem retryOperation_rateLimit_then_success_witness :
    2 < 3 ∧ retryOperation opSucceedsAfterTwo 3 2000 0 = ⟨.ok 42, [2000, 4000], 3⟩ :=
  ⟨by omega,
   retryOperation_rateLimit_then_success opSucceedsAfterTwo 2 3 2000 42 (by omega)
     (fun i hi => ⟨rateLimitError, by unfold opSucceedsAfterTwo; rw [if_pos hi], by decide⟩)
     rfl⟩

/-- Claim C2: a non-rate-limit error propagates at once — no delay is
waited, the operation is invoked exactly once whatever the budget, and the
error is returned unchanged; and when every invocation up to and including
the budget-exhausting one fails with a rate-limit signal, the error of the
last invocation is propagated unchanged. -/
theorem retryOperation_error_propagation {α : Type} :
    (∀ (op : Nat → Except GenError α) (b d : Nat) (e : GenError),
       op 0 = .error e → isRateLimit e = false →
       retryOperation op b d 0 = ⟨.error e, [], 1⟩) ∧
    (∀ (op : Nat → Except GenError α) (b d : Nat) (e : GenError),
       (∀ i < b, ∃ e', op i = .error e' ∧ isRateLimit e' = true) →
       op b = .error e → isRateLimit e = true →
       retryOperation op b d 0 =
         ⟨.error e, (List.range b).map (fun n => d * 2 ^ n), b + 1⟩) :=
  ⟨fun op b d e hop hrl => retryOperation_stop_nonRL hop hrl b d,
   fun op b d e hfail hlast _ =>
     retryOperation_exhaust op b d 0 e
       (fun i hi => by rw [Nat.zero_add]; exact hfail i hi)
       (by rw [Nat.zero_add]; exact hlast)⟩

/-- Witness for C2: a permanent 500 error returns unchanged after one
invocation with no delay; an operation that always rate-limits exhausts a
budget of 2 and returns the last error after delays 1000 and 2000. -/
theorem retryOperation_error_propagation_witness :
    retryOperation opAlwaysServerError 3 2000 0 = ⟨.error serverError, [], 1⟩ ∧
    retryOperation opAlwaysRateLimited 2 1000 0 =
      ⟨.error rateLimitError, [1000, 2000], 3⟩ :=
  ⟨retryOperation_error_propagation.1 opAlwaysServerError 3 2000 serverError rfl (by decide),
   retryOperation_error_propagation.2 opAlwaysRateLimited 2 1000 rateLimitError
     (fun i _ => ⟨rateLimitError, rfl, by decide⟩) rfl (by decide)⟩

/-- Claim C3 counterexample: the error whose only rate-limit marker is
`code = 429` is a rate-limit signal by the taxonomy `isRateLimit`, yet the
`generateSingleImage` catch handler swallows it into a null result instead
of rethrowing it. -/
theorem generateSingleImage_code429_swallowed :
    isRateLimit codeRateLimitError = true ∧
    generateSingleImageAttempt (.error codeRateLimitError) = .ok none :=
  ⟨by decide, rfl⟩

/-- Claim C3 (amended): `generateSingleImage` rethrows exactly the errors
that are `Error` instances with `status === 429` — such a run retries up
to the full budget and surfaces the error — while every other error,
including rate-limit signals carried only by `code` or by message content,
is swallowed on the first attempt and reported as a null result. -/
theorem generateSingleImage_error_policy :
    (∀ (resps : Nat → Except GenError (Option (List (Option String))))
       (e : GenError), (∀ i, resps i = .error e) →
       e.isErrorInstance = true → e.status = some 429 →
       generateSingleImage resps =
         ⟨.error e, (List.range 3).map (fun n => 2000 * 2 ^ n), 4⟩) ∧
    (∀ (resps : Nat → Except GenError (Option (List (Option String))))
       (e : GenError), resps 0 = .error e →
       (e.isErrorInstance && e.status == some 429) = false →
       generateSingleImage resps = ⟨.ok none, [], 1⟩) := by
  constructor
  · intro resps e hresp hinst hstat
    have hop : ∀ i,
        generateSingleImageAttempt ((resps i).map firstInlineImage) = .error e := by
      intro i
      rw [hresp i]
      simp [generateSingleImageAttempt, Except.map, hinst, hstat]
    exact retryOperation_exhaust _ 3 2000 0 e
      (fun i _ => ⟨e, by rw [Nat.zero_add]; exact hop i, isRateLimit_of_status429 hstat⟩)
      (by rw [Nat.zero_add]; exact hop 3)
  · intro resps e hresp hcond
    have hop : generateSingleImageAttempt ((resps 0).map firstInlineImage) = .ok none := by
      rw [hresp]
      simp [generateSingleImageAttempt, Except.map, hcond]
    exact retryOperation_of_ok hop 3 2000

/-- Witness for C3 (amended): a permanent status-429 `Error` exhausts the
budget and surfaces; a permanent code-only 429 is swallowed at once. -/
theorem generateSingleImage_error_policy_witness :
    generateSingleImage (fun _ => .error rateLimitError) =
      ⟨.error rateLimitError, [2000, 4000, 8000], 4⟩ ∧
    generateSingleImage (fun _ => .error codeRateLimitError) = ⟨.ok none, [], 1⟩ :=
  ⟨generateSingleImage_error_policy.1 (fun _ => .error rateLimitError)
     rateLimitError (fun _ => rfl) rfl rfl,
   generateSingleImage_error_policy.2 (fun _ => .error codeRateLimitError)
     codeRateLimitError rfl (by decide)⟩

/-- Claim C4: for every requested count, the reference lookup never fails
outward — wrapped in the retrier it succeeds on the first invocation — and
its result has exactly `count` entries: the URLs extracted from the
grounding metadata first (truncated to `count`), padded with empty strings
up to length `count`. -/
theorem getRealWorldReferences_padding
    (resps : Nat → Except GenError (Option (List (Option String)))) (count : Nat) :
    getRealWorldReferences resps count =
      ⟨.ok (getRealWorldReferencesBody (resps 0) count), [], 1⟩ ∧
    ∀ resp, (getRealWorldReferencesBody resp count).length = count ∧
      getRealWorldReferencesBody resp count =
        (extractedUrls resp).take count
          ++ List.replicate (count - (extractedUrls resp).length) "" :=
  ⟨@retryOperation_of_ok _ (fun i => .ok (getRealWorldReferencesBody (resps i) count))
     0 (getRealWorldReferencesBody (resps 0) count) rfl 3 2000,
   fun resp => ⟨getRealWorldReferencesBody_length resp count,
                getRealWorldReferencesBody_eq resp count⟩⟩

/-- Claim C5: the inspiration-image batch is exactly the list of successful
images, indexed in the original view order — a view whose generation threw
(rate-limit or not) or produced no image contributes nothing, and the other
views keep their images and order. View `i` is paired with grounding
reference `i % 3` of the 3 fetched references. -/
theorem generateInspirationImages_isolation
    (refResp : Except GenError (Option (List (Option String))))
    (customViews : Option (List String))
    (gen : String → String → Except GenError (Option String)) :
    generateInspirationImages refResp customViews gen
      = (List.range ((customViews.getD defaultViews).length)).filterMap (fun i =>
          imageSuccess (fun image => image)
            (gen ((customViews.getD defaultViews).getD i "")
                 ((getRealWorldReferencesBody refResp 3).getD (i % 3) ""))) :=
  generateInspirationImages_filterMap refResp customViews gen

/-- Claim C6: the surprise batch is exactly the ordered list of
`(style, image)` pairs that succeeded — a style whose generation threw or
yielded no image is omitted, the remaining pairs keep the input order, and
the result is never longer than the input. -/
theorem generateSurpriseImages_isolation (styles : List String)
    (refResps : String → Except GenError (Option (List (Option String))))
    (gen : String → String → Except GenError (Option String)) :
    generateSurpriseImages styles refResps gen
      = styles.filterMap (fun style =>
          imageSuccess (fun image => (style, image))
            (gen style ((getRealWorldReferencesBody (refResps style) 1).getD 0 ""))) ∧
    (generateSurpriseImages styles refResps gen).length ≤ styles.length := by
  refine ⟨generateSurpriseImages_filterMap styles refResps gen, ?_⟩
  rw [generateSurpriseImages_filterMap styles refResps gen]
  exact List.length_filterMap_le _ _

/-- Claim C7 counterexample: the empty JSON object is missing every field
required by `PLAN_SCHEMA`, yet `generateProjectPlan` does not treat it as a
parse/validation failure — `JSON.parse` succeeds and the unvalidated cast
returns a plan value with every field absent. -/
theorem generateProjectPlan_missing_field_not_failure :
    hasAllRequired (Json.obj []) = false ∧
    generateProjectPlanBody (.ok (some (.value (Json.obj [])))) =
      .ok ⟨none, none, none, none, none, none, none, none⟩ :=
  ⟨rfl, rfl⟩

/-- Claim C7 (amended): a well-formed JSON response matching the plan
schema round-trips into a plan with all 8 fields populated; any response
whose text parses as JSON — including one missing required fields — is
returned as the unvalidated cast, never as a failure; only empty response
text and unparsable text are surfaced as errors to the caller. -/
theorem generateProjectPlan_parse_behaviour :
    (∀ p : ProjectPlan,
       generateProjectPlanBody (.ok (some (.value (planToJson p)))) =
         .ok ⟨some (.str p.styleSummary), some (.arr (p.steps.map .str)),
              some (.str p.costEstimate), some (.str p.timeEstimate),
              some (.arr (p.materials.map .str)), some (.arr (p.tools.map .str)),
              some (.arr (p.safety.map .str)), some (.str p.itemDescription)⟩) ∧
    (∀ j : Json, generateProjectPlanBody (.ok (some (.value j))) = .ok (castPlan j)) ∧
    (∀ resps : Nat → Except GenError (Option ParsedText),
       resps 0 = .ok none →
       generateProjectPlan resps = ⟨.error noTextError, [], 1⟩) ∧
    (∀ resps : Nat → Except GenError (Option ParsedText),
       resps 0 = .ok (some .malformed) →
       generateProjectPlan resps = ⟨.error jsonSyntaxError, [], 1⟩) := by
  refine ⟨fun p => rfl, fun j => rfl, fun resps h => ?_, fun resps h => ?_⟩
  · have hop : generateProjectPlanBody (resps 0) = .error noTextError := by rw [h]; rfl
    exact retryOperation_stop_nonRL hop (by decide) 3 2000
  · have hop : generateProjectPlanBody (resps 0) = .error jsonSyntaxError := by rw [h]; rfl
    exact retryOperation_stop_nonRL hop (by decide) 3 2000

/-- Witness for C7 (amended): a permanently empty text response surfaces
the no-text error immediately; permanently malformed text surfaces the
JSON syntax error immediately. -/
theorem generateProjectPlan_parse_behaviour_witness :
    generateProjectPlan (fun _ => .ok none) = ⟨.error noTextError, [], 1⟩ ∧
    generateProjectPlan (fun _ => .ok (some .malformed)) =
      ⟨.error jsonSyntaxError, [], 1⟩ :=
  ⟨generateProjectPlan_parse_behaviour.2.2.1 (fun _ => .ok none) rfl,
   generateProjectPlan_parse_behaviour.2.2.2 (fun _ => .ok (some .malformed)) rfl⟩

/-- Claim C8: for every plan, history and user message, a non-empty service
reply is returned verbatim, and an empty (or absent) reply yields the fixed
fallback apology string. -/
theorem sendProjectChat_reply (plan : ProjectPlan) (history : List ChatMessage)
    (newMessage : String) :
    (∀ t, t ≠ "" → sendProjectChat plan history newMessage (some t) = t) ∧
    sendProjectChat plan history newMessage (some "") = FALLBACK_APOLOGY ∧
    sendProjectChat plan history newMessage none = FALLBACK_APOLOGY :=
  ⟨fun t ht => by simp [sendProjectChat, ht], rfl, rfl⟩

/-- Witness for C8: a concrete non-empty reply is returned verbatim. -/
theorem sendProjectChat_reply_witness :
    "You got this!" ≠ "" ∧
    sendProjectChat examplePlan [] "hi" (some "You got this!") = "You got this!" :=
  ⟨by decide, (sendProjectChat_reply examplePlan [] "hi").1 "You got this!" (by decide)⟩

/-- Claim C9: with an initial image, `generateFullPlan` requests exactly the
two additional views and prefixes the initial image to their successes;
with no initial image it requests the three default views (front, angled,
detail); and a failed plan generation aborts into the error state with no
result assembled. -/
theorem generateFullPlan_orchestration :
    (∀ (planResps : Nat → Except GenError (Option ParsedText)) (init : String)
       (refResp : Except GenError (Option (List (Option String))))
       (gen : String → String → Except GenError (Option String)) (plan : RawPlan),
       (generateProjectPlan planResps).result = .ok plan →
       generateFullPlan planResps (some init) refResp gen =
         .results plan (init :: (List.range 2).filterMap (fun i =>
           imageSuccess (fun image => image)
             (gen (additionalViews.getD i "")
                  ((getRealWorldReferencesBody refResp 3).getD (i % 3) ""))))) ∧
    (∀ planResps refResp gen (plan : RawPlan),
       (generateProjectPlan planResps).result = .ok plan →
       generateFullPlan planResps none refResp gen =
         .results plan ((List.range 3).filterMap (fun i =>
           imageSuccess (fun image => image)
             (gen (defaultViews.getD i "")
                  ((getRealWorldReferencesBody refResp 3).getD (i % 3) ""))))) ∧
    (∀ planResps (initialImage : Option String) refResp gen (e : GenError),
       (generateProjectPlan planResps).result = .error e →
       generateFullPlan planResps initialImage refResp gen =
         .errorState (errMessage e)) := by
  refine ⟨fun planResps init refResp gen plan h => ?_,
          fun planResps refResp gen plan h => ?_,
          fun planResps initialImage refResp gen e h => ?_⟩
  · rw [generateFullPlan, h]
    show FullPlanOutcome.results plan
      (init :: generateInspirationImages refResp (some additionalViews) gen) = _
    rw [generateInspirationImages_filterMap]
    rfl
  · rw [generateFullPlan, h]
    show FullPlanOutcome.results plan (generateInspirationImages refResp none gen) = _
    rw [generateInspirationImages_filterMap]
    rfl
  · cases initialImage <;> simp [generateFullPlan, h]

/-- Witness for C9: with a plan response that round-trips `examplePlan`,
an initial image, empty references, and a generator that fails on the
angled view, the result is the initial image followed by the detail view
image; with a permanently empty plan response, the error state carries the
no-text message. -/
theorem generateFullPlan_orchestration_witness :
    generateFullPlan (fun _ => .ok (some (.value (planToJson examplePlan))))
        (some "init-img") (.error serverError) genFailsSecondView =
      .results (castPlan (planToJson examplePlan))
        ["init-img", "detail focused view"] ∧
    generateFullPlan (fun _ => .ok none) none (.error serverError)
        genFailsSecondView =
      .errorState "No text response received from Gemini." :=
  ⟨generateFullPlan_orchestration.1 (fun _ => .ok (some (.value (planToJson examplePlan))))
     "init-img" (.error serverError) genFailsSecondView
     (castPlan (planToJson examplePlan)) rfl,
   generateFullPlan_orchestration.2.2 (fun _ => .ok none) none (.error serverError)
     genFailsSecondView noTextError rfl⟩

/-- Claim C10: `retryOperation` terminates for every budget: the retry
count strictly decreases on each recursive call, so a run with budget `b`
invokes the underlying operation at most `b + 1` times. -/
theorem retryOperation_invocation_bound {α : Type}
    (op : Nat → Except GenError α) (b d idx : Nat) :
    (retryOperation op b d idx).calls ≤ b + 1 :=
  retryOperation_calls_bound op b d idx

end Homey
